import Mathlib

/-!
Shallow embedding of the data-acquisition core of `app.py` (GitHub repository
analyzer).  The embedded functions mirror, statement by statement, the Python
functions `extract_repo_info`, `handle_github_error`, `fetch_repo_data`,
`fetch_language_stats`, `fetch_commit_activity` and `check_rate_limit`.

Modelling conventions:
* JSON values are the inductive `JVal`; a response body that fails JSON
  parsing is `none`.
* Python exceptions are the inductive `PyExc`; a `try` block is a value of
  `Except PyExc α` and each `except` clause chain is a total handler mapping
  it into `Outcome α` (either a returned value or an uncaught exception).
* Python floats are modelled as rationals (the only float operations in the
  core are division and multiplication of small integers).
* Local-time formatting (`datetime.fromtimestamp`) is modelled with an
  explicit timezone offset `tz` in seconds passed to every function that
  formats a timestamp; Python `//` and `%` with positive divisor correspond
  to `Int.fdiv` / `Int.emod`.
-/

/-- JSON values, as produced by `response.json()`. -/
inductive JVal : Type
  | jnull : JVal
  | jint : Int → JVal
  | jstr : String → JVal
  | jarr : List JVal → JVal
  | jobj : List (String × JVal) → JVal

/-- Python exceptions that can occur in the embedded fragment. -/
inductive GitHubAPIErrorData : Type
  | mk (message : String) (status_code : Option Int) (remaining_calls : Option String)

/-- `e.message` of a `GitHubAPIError`. -/
def GitHubAPIErrorData.message : GitHubAPIErrorData → String
  | .mk m _ _ => m

/-- `e.status_code` of a `GitHubAPIError`. -/
def GitHubAPIErrorData.status_code : GitHubAPIErrorData → Option Int
  | .mk _ s _ => s

/-- `e.remaining_calls` of a `GitHubAPIError`. -/
def GitHubAPIErrorData.remaining_calls : GitHubAPIErrorData → Option String
  | .mk _ _ r => r

/-- Exceptions raised by the Python code under study: the custom
`GitHubAPIError`, the two `requests` transport exceptions, and the built-in
exceptions that slicing, key access, `int()`, `json()` and division raise. -/
inductive PyExc : Type
  | api (e : GitHubAPIErrorData)
  | timeoutExc
  | connectionExc
  | jsonDecodeError
  | keyError (k : String)
  | typeError (msg : String)
  | attributeError (msg : String)
  | indexError
  | valueError (msg : String)
  | zeroDivisionError

/-- Python `str(e)` for the exceptions above (only the values actually
inspected by a theorem matter: `GitHubAPIError` yields its message and
`ZeroDivisionError` yields "division by zero", as in CPython). -/
def PyExc.pyStr : PyExc → String
  | .api e => e.message
  | .timeoutExc => ""
  | .connectionExc => ""
  | .jsonDecodeError => "Expecting value: line 1 column 1 (char 0)"
  | .keyError k => "'" ++ k ++ "'"
  | .typeError m => m
  | .attributeError m => m
  | .indexError => "list index out of range"
  | .valueError m => m
  | .zeroDivisionError => "division by zero"

/-- An HTTP response as seen through `requests`: status code, headers,
parsed JSON body (`none` when `.json()` would raise) and raw text. -/
structure Response : Type where
  status : Int
  headers : List (String × String)
  body : Option JVal
  text : String

/-- Result of `requests.get`: either a transport failure or a response. -/
inductive HTTPResult : Type
  | timeout
  | connectionError
  | response (r : Response)

/-- Observable outcome of calling one of the Python functions: a returned
value or an uncaught exception. -/
inductive Outcome (α : Type) : Type
  | ok (val : α)
  | raised (e : PyExc)

/-- First-match association-list lookup, the model of Python `dict`
indexing and of (exact-name) header lookup. -/
def lookupStr {α : Type} : List (String × α) → String → Option α
  | [], _ => none
  | (k, v) :: rest, key => if k = key then some v else lookupStr rest key

/-- `d[k]` on a JSON value: `KeyError` when the key is missing,
`TypeError` when the value is not an object. -/
def JVal.getKey : JVal → String → Except PyExc JVal
  | .jobj fields, k =>
    match lookupStr fields k with
    | some v => .ok v
    | none => .error (.keyError k)
  | .jarr _, _ => .error (.typeError "list indices must be integers or slices, not str")
  | .jstr _, _ => .error (.typeError "string indices must be integers")
  | _, _ => .error (.typeError "object is not subscriptable")

/-- `d.get(k, default)` on a JSON value: returns the stored value — even an
explicit `null` — whenever the key is present, the default only when the key
is absent. Raises `AttributeError` when the value is not an object. -/
def JVal.getDefault : JVal → String → JVal → Except PyExc JVal
  | .jobj fields, k, d => .ok ((lookupStr fields k).getD d)
  | _, _, _ => .error (.attributeError "object has no attribute get")

/-- A JSON value used where an integer is required (timestamp arithmetic,
`+=` accumulation). -/
def JVal.asInt : JVal → Except PyExc Int
  | .jint n => .ok n
  | _ => .error (.typeError "unsupported operand type")

/-- A JSON value used where a number is required by `sum` / `/`; numbers are
modelled as rationals. -/
def JVal.asNum : JVal → Except PyExc ℚ
  | .jint n => .ok (n : ℚ)
  | _ => .error (.typeError "unsupported operand type")

/-- Python iteration `for x in v`: lists yield elements, dicts yield their
keys, strings yield one-character strings. -/
def JVal.asList : JVal → Except PyExc (List JVal)
  | .jarr l => .ok l
  | .jobj fields => .ok (fields.map fun p => JVal.jstr p.1)
  | .jstr s => .ok (s.data.map fun c => JVal.jstr (String.mk [c]))
  | _ => .error (.typeError "object is not iterable")

/-- `v.values()` / `v.items()` (requires a dict). -/
def JVal.asObj : JVal → Except PyExc (List (String × JVal))
  | .jobj fields => .ok fields
  | _ => .error (.attributeError "object has no attribute values")

/-- `v[i]` with an integer index (only lists are indexed this way in the
source). -/
def JVal.index : JVal → Nat → Except PyExc JVal
  | .jarr l, i =>
    match l.get? i with
    | some v => .ok v
    | none => .error .indexError
  | _, _ => .error (.typeError "object is not subscriptable")

/-- Python truthiness of a JSON value (`if not data:` / `if not languages:`
/ `if reset_time:`). -/
def JVal.isFalsy : JVal → Bool
  | .jnull => true
  | .jint n => n == 0
  | .jstr s => s.isEmpty
  | .jarr l => l.isEmpty
  | .jobj l => l.isEmpty

/-- Decimal digit test. -/
def isDigitCh (c : Char) : Bool := '0' ≤ c && c ≤ '9'

/-- Numeric value of a decimal digit character. -/
def digitVal (c : Char) : Nat := c.toNat - 48

/-- Accumulating decimal parse; fails on any non-digit. -/
def parseDigits : List Char → Nat → Option Nat
  | [], acc => some acc
  | c :: rest, acc =>
    if isDigitCh c then parseDigits rest (acc * 10 + digitVal c) else none

/-- Python `int(s)` on the header strings that occur here: an optional sign
followed by at least one decimal digit (whitespace/underscore forms are not
produced by the API and are not modelled). `none` models `ValueError`. -/
def parseIntString (s : String) : Option Int :=
  match s.data with
  | [] => none
  | '-' :: rest =>
    if rest.isEmpty then none else (parseDigits rest 0).map fun n => -(n : Int)
  | '+' :: rest =>
    if rest.isEmpty then none else (parseDigits rest 0).map fun n => (n : Int)
  | l => (parseDigits l 0).map fun n => (n : Int)

/-- Zero-pad to two digits, as `strftime` does for `%H`/`%M`/`%S`/`%m`/`%d`. -/
def pad2 (n : Int) : String := if n < 10 then "0" ++ toString n else toString n

/-- Zero-pad to four digits, as `strftime` does for `%Y`. -/
def pad4 (n : Int) : String :=
  if n < 10 then "000" ++ toString n
  else if n < 100 then "00" ++ toString n
  else if n < 1000 then "0" ++ toString n
  else toString n

/-- `datetime.fromtimestamp(ts).strftime('%H:%M:%S')` with the local zone
modelled as a fixed offset `tz` in seconds. -/
def formatHMS (tz ts : Int) : String :=
  let sod := (ts + tz).emod 86400
  pad2 (sod.fdiv 3600) ++ ":" ++ pad2 ((sod.emod 3600).fdiv 60) ++ ":" ++ pad2 (sod.emod 60)

/-- Gregorian civil date from days since the Unix epoch (standard
era-decomposition algorithm, with floor division). -/
def civilFromDays (z0 : Int) : Int × Int × Int :=
  let z := z0 + 719468
  let era := z.fdiv 146097
  let doe := z - era * 146097
  let yoe := (doe - doe.fdiv 1460 + doe.fdiv 36524 - doe.fdiv 146096).fdiv 365
  let y := yoe + era * 400
  let doy := doe - (365 * yoe + yoe.fdiv 4 - yoe.fdiv 100)
  let mp := (5 * doy + 2).fdiv 153
  let d := doy - (153 * mp + 2).fdiv 5 + 1
  let m := mp + (if mp < 10 then 3 else -9)
  (y + (if m ≤ 2 then 1 else 0), m, d)

/-- `datetime.fromtimestamp(ts).strftime('%Y-%m-%d')` with the local zone
modelled as a fixed offset `tz` in seconds. -/
def fromtimestampDate (tz ts : Int) : String :=
  let days := (ts + tz).fdiv 86400
  match civilFromDays days with
  | (y, m, d) => pad4 y ++ "-" ++ pad2 m ++ "-" ++ pad2 d

/-- Leap-year test of the Gregorian calendar. -/
def isLeapYear (y : Int) : Bool :=
  (y.emod 4 == 0 && y.emod 100 != 0) || y.emod 400 == 0

/-- Number of days in a month, used by `strptime` validation. -/
def daysInMonth (y m : Int) : Int :=
  if m = 2 then (if isLeapYear y then 29 else 28)
  else if m = 4 || m = 6 || m = 9 || m = 11 then 30
  else 31

/-- `datetime.strptime(s, "%Y-%m-%dT%H:%M:%SZ").strftime("%Y-%m-%d")`, i.e.
the body of `format_date`, on the zero-padded form of the fixed format:
validates the shape and field ranges and returns the date part.  A string of
any other shape raises `ValueError`. -/
def format_dateStr (s : String) : Except PyExc String :=
  match s.data with
  | [y1, y2, y3, y4, ca, m1, m2, cb, d1, d2, ct, h1, h2, cc, n1, n2, cd, s1, s2, cz] =>
    if isDigitCh y1 && isDigitCh y2 && isDigitCh y3 && isDigitCh y4 &&
       ca = '-' && isDigitCh m1 && isDigitCh m2 && cb = '-' &&
       isDigitCh d1 && isDigitCh d2 && ct = 'T' &&
       isDigitCh h1 && isDigitCh h2 && cc = ':' &&
       isDigitCh n1 && isDigitCh n2 && cd = ':' &&
       isDigitCh s1 && isDigitCh s2 && cz = 'Z' then
      let year : Int := ((digitVal y1 * 10 + digitVal y2) * 10 + digitVal y3) * 10 + digitVal y4
      let month : Int := digitVal m1 * 10 + digitVal m2
      let day : Int := digitVal d1 * 10 + digitVal d2
      let hour : Int := digitVal h1 * 10 + digitVal h2
      let minute : Int := digitVal n1 * 10 + digitVal n2
      let second : Int := digitVal s1 * 10 + digitVal s2
      if 1 ≤ month && month ≤ 12 && 1 ≤ day && day ≤ daysInMonth year month &&
         hour ≤ 23 && minute ≤ 59 && second ≤ 59 then
        .ok (String.mk [y1, y2, y3, y4, '-', m1, m2, '-', d1, d2])
      else .error (.valueError "time data does not match format")
    else .error (.valueError "time data does not match format")
  | _ => .error (.valueError "time data does not match format")

/-- `format_date` applied to a JSON value: `strptime` raises `TypeError`
when its argument is not a string. -/
def format_date (v : JVal) : Except PyExc String :=
  match v with
  | .jstr s => format_dateStr s
  | _ => .error (.typeError "strptime argument must be str")

/-- `handle_github_error(response)`: computes `remaining_calls` from the
`X-RateLimit-Remaining` header (default `'Unknown'`), converts a truthy
`X-RateLimit-Reset` header through `int` and local-time `%H:%M:%S`
formatting (a non-numeric header makes `int()` raise `ValueError`), then
raises the `GitHubAPIError` of the status-code table. -/
def handle_github_error (tz : Int) (r : Response) : PyExc :=
  let remaining_calls := (lookupStr r.headers "X-RateLimit-Remaining").getD "Unknown"
  let resetParsed : Except PyExc String :=
    match lookupStr r.headers "X-RateLimit-Reset" with
    | some s =>
      if s.isEmpty then .ok "Unknown"
      else
        match parseIntString s with
        | some n => .ok (formatHMS tz n)
        | none => .error (.valueError ("invalid literal for int() with base 10: " ++ s))
    | none => .ok "Unknown"
  match resetParsed with
  | .error e => e
  | .ok reset_time =>
    if r.status = 404 then
      .api (.mk "Repository not found. Please check the URL." (some 404) (some remaining_calls))
    else if r.status = 403 then
      .api (.mk ("Rate limit exceeded. Resets at " ++ reset_time ++ ". Remaining calls: " ++ remaining_calls)
        (some 403) (some remaining_calls))
    else if r.status = 401 then
      .api (.mk "Unauthorized access. Please check your credentials." (some 401) (some remaining_calls))
    else if r.status = 429 then
      .api (.mk ("Too many requests. Please wait until " ++ reset_time ++ ".")
        (some 429) (some remaining_calls))
    else
      .api (.mk ("GitHub API error: " ++ toString r.status ++ " - " ++ r.text)
        (some r.status) (some remaining_calls))

/-- A shaped repository summary, the dict literal built by
`fetch_repo_data`. -/
structure RepoSummary : Type where
  name : JVal
  description : JVal
  stargazers_count : JVal
  forks_count : JVal
  watchers_count : JVal
  language : JVal
  created_at : String
  updated_at : String

/-- The `try` block of `fetch_repo_data`: request, status check, payload
shaping — evaluated in source order so the first failing field raises. -/
def repoInner (tz : Int) (hr : HTTPResult) : Except PyExc RepoSummary :=
  match hr with
  | .timeout => .error .timeoutExc
  | .connectionError => .error .connectionExc
  | .response r =>
    if r.status ≠ 200 then .error (handle_github_error tz r)
    else
      match r.body with
      | none => .error .jsonDecodeError
      | some repo_data =>
        match repo_data.getKey "name" with
        | .error e => .error e
        | .ok name =>
          match repo_data.getDefault "description" (.jstr "No description available") with
          | .error e => .error e
          | .ok description =>
            match repo_data.getKey "stargazers_count" with
            | .error e => .error e
            | .ok stargazers =>
              match repo_data.getKey "forks_count" with
              | .error e => .error e
              | .ok forks =>
                match repo_data.getKey "watchers_count" with
                | .error e => .error e
                | .ok watchers =>
                  match repo_data.getDefault "language" (.jstr "Not specified") with
                  | .error e => .error e
                  | .ok language =>
                    match repo_data.getKey "created_at" with
                    | .error e => .error e
                    | .ok cv =>
                      match format_date cv with
                      | .error e => .error e
                      | .ok created =>
                        match repo_data.getKey "updated_at" with
                        | .error e => .error e
                        | .ok uv =>
                          match format_date uv with
                          | .error e => .error e
                          | .ok updated =>
                            .ok ⟨name, description, stargazers, forks, watchers, language, created, updated⟩

/-- `fetch_repo_data`: the `except` chain converts a timeout, a connection
failure and any unexpected exception into a `GitHubAPIError` and re-raises a
`GitHubAPIError` unchanged. -/
def fetch_repo_data (tz : Int) (hr : HTTPResult) : Outcome RepoSummary :=
  match repoInner tz hr with
  | .ok v => .ok v
  | .error .timeoutExc =>
    .raised (.api (.mk "Request timed out. Please try again." none none))
  | .error .connectionExc =>
    .raised (.api (.mk "Connection error. Please check your internet connection." none none))
  | .error (.api e) => .raised (.api e)
  | .error e => .raised (.api (.mk ("Unexpected error: " ++ e.pyStr) none none))

/-- `total = sum(languages.values())`, left to right from an accumulator. -/
def sumValues : List (String × JVal) → ℚ → Except PyExc ℚ
  | [], acc => .ok acc
  | (_, v) :: rest, acc =>
    match v.asNum with
    | .error e => .error e
    | .ok q => sumValues rest (acc + q)

/-- The dict comprehension `{lang: (count / total) * 100 ...}`; the first
division by a zero total raises `ZeroDivisionError`. -/
def pctList : List (String × JVal) → ℚ → Except PyExc (List (String × ℚ))
  | [], _ => .ok []
  | (lang, v) :: rest, total =>
    match v.asNum with
    | .error e => .error e
    | .ok c =>
      if total = 0 then .error .zeroDivisionError
      else
        match pctList rest total with
        | .error e => .error e
        | .ok l => .ok ((lang, c / total * 100) :: l)

/-- The `try` block of `fetch_language_stats`. -/
def langInner (tz : Int) (hr : HTTPResult) : Except PyExc (Option (List (String × ℚ))) :=
  match hr with
  | .timeout => .error .timeoutExc
  | .connectionError => .error .connectionExc
  | .response r =>
    if r.status ≠ 200 then .error (handle_github_error tz r)
    else
      match r.body with
      | none => .error .jsonDecodeError
      | some languages =>
        if languages.isFalsy then .ok none
        else
          match languages.asObj with
          | .error e => .error e
          | .ok items =>
            match sumValues items 0 with
            | .error e => .error e
            | .ok total =>
              match pctList items total with
              | .error e => .error e
              | .ok l => .ok (some l)

/-- `fetch_language_stats`: `except (Timeout, ConnectionError,
GitHubAPIError): raise` re-raises those three unchanged; only other
exceptions are wrapped. -/
def fetch_language_stats (tz : Int) (hr : HTTPResult) : Outcome (Option (List (String × ℚ))) :=
  match langInner tz hr with
  | .ok v => .ok v
  | .error .timeoutExc => .raised .timeoutExc
  | .error .connectionExc => .raised .connectionExc
  | .error (.api e) => .raised (.api e)
  | .error e => .raised (.api (.mk ("Error fetching language statistics: " ++ e.pyStr) none none))

/-- The result values of `fetch_commit_activity`. -/
inductive CommitActivityResult : Type
  | computing (message : String)
  | ready (total_commits : Int) (weeks : List String) (commits : List Int) (daily_commits : List Int)

/-- `total_commits = sum(week['total'] for week in data)`. -/
def sumTotals : List JVal → Int → Except PyExc Int
  | [], acc => .ok acc
  | w :: rest, acc =>
    match w.getKey "total" with
    | .error e => .error e
    | .ok tv =>
      match tv.asInt with
      | .error e => .error e
      | .ok t => sumTotals rest (acc + t)

/-- The loop that formats each week's Unix timestamp as a `%Y-%m-%d`
string. -/
def weekDates (tz : Int) : List JVal → Except PyExc (List String)
  | [] => .ok []
  | w :: rest =>
    match w.getKey "week" with
    | .error e => .error e
    | .ok tv =>
      match tv.asInt with
      | .error e => .error e
      | .ok ts =>
        match weekDates tz rest with
        | .error e => .error e
        | .ok l => .ok (fromtimestampDate tz ts :: l)

/-- `commits = [week['total'] for week in data]`. -/
def weekCommits : List JVal → Except PyExc (List Int)
  | [] => .ok []
  | w :: rest =>
    match w.getKey "total" with
    | .error e => .error e
    | .ok tv =>
      match tv.asInt with
      | .error e => .error e
      | .ok t =>
        match weekCommits rest with
        | .error e => .error e
        | .ok l => .ok (t :: l)

/-- One iteration `daily_commits[day] += week['days'][day]`. -/
def addDay (acc : List Int) (w : JVal) (d : Nat) : Except PyExc (List Int) :=
  match w.getKey "days" with
  | .error e => .error e
  | .ok days =>
    match days.index d with
    | .error e => .error e
    | .ok v =>
      match v.asInt with
      | .error e => .error e
      | .ok n => .ok (acc.set d (acc.getD d 0 + n))

/-- The inner loop `for day in range(7)` over an explicit index list. -/
def addDaysLoop (w : JVal) : List Nat → List Int → Except PyExc (List Int)
  | [], acc => .ok acc
  | d :: ds, acc =>
    match addDay acc w d with
    | .error e => .error e
    | .ok acc2 => addDaysLoop w ds acc2

/-- One outer iteration of the day-of-week accumulation (`range(7)` is the
list `[0,1,2,3,4,5,6]`). -/
def addWeekDays (acc : List Int) (w : JVal) : Except PyExc (List Int) :=
  addDaysLoop w [0, 1, 2, 3, 4, 5, 6] acc

/-- The outer loop `for week in data` of the day-of-week accumulation. -/
def dailyFold : List JVal → List Int → Except PyExc (List Int)
  | [], acc => .ok acc
  | w :: rest, acc =>
    match addWeekDays acc w with
    | .error e => .error e
    | .ok acc2 => dailyFold rest acc2

/-- The `try` block of `fetch_commit_activity`: status 202 short-circuits to
the computing state before the body is ever read; an empty series yields
`None`; otherwise the four aggregates are computed in source order. -/
def commitInner (tz : Int) (hr : HTTPResult) : Except PyExc (Option CommitActivityResult) :=
  match hr with
  | .timeout => .error .timeoutExc
  | .connectionError => .error .connectionExc
  | .response r =>
    if r.status = 202 then
      .ok (some (.computing "GitHub is computing statistics. Please wait a moment and try again."))
    else if r.status ≠ 200 then .error (handle_github_error tz r)
    else
      match r.body with
      | none => .error .jsonDecodeError
      | some data =>
        if data.isFalsy then .ok none
        else
          match data.asList with
          | .error e => .error e
          | .ok ws =>
            match sumTotals ws 0 with
            | .error e => .error e
            | .ok total_commits =>
              match weekDates tz ws with
              | .error e => .error e
              | .ok weeks =>
                match weekCommits ws with
                | .error e => .error e
                | .ok commits =>
                  match dailyFold ws (List.replicate 7 0) with
                  | .error e => .error e
                  | .ok daily => .ok (some (.ready total_commits weeks commits daily))

/-- `fetch_commit_activity`: the `except` chain has no dedicated
`GitHubAPIError` clause, so the generic `except Exception` wraps even a
`GitHubAPIError` raised by `handle_github_error`, discarding its status
code. -/
def fetch_commit_activity (tz : Int) (hr : HTTPResult) : Outcome (Option CommitActivityResult) :=
  match commitInner tz hr with
  | .ok v => .ok v
  | .error .timeoutExc =>
    .raised (.api (.mk "Request timed out while fetching commit activity." none none))
  | .error .connectionExc =>
    .raised (.api (.mk "Connection error while fetching commit activity." none none))
  | .error e => .raised (.api (.mk ("Error fetching commit activity: " ++ e.pyStr) none none))

/-- The snapshot dict built by `check_rate_limit` (the `remaining` and
`limit` payload values are passed through unconverted). -/
structure RateLimitStatus : Type where
  remaining : JVal
  reset_time : String
  limit : JVal

/-- The `try` block of `check_rate_limit`: only a 200 status reaches the
payload extraction; any other status falls through to `None`. -/
def rateInner (tz : Int) (hr : HTTPResult) : Except PyExc (Option RateLimitStatus) :=
  match hr with
  | .timeout => .error .timeoutExc
  | .connectionError => .error .connectionExc
  | .response r =>
    if r.status = 200 then
      match r.body with
      | none => .error .jsonDecodeError
      | some data =>
        match data.getKey "resources" with
        | .error e => .error e
        | .ok resources =>
          match resources.getKey "core" with
          | .error e => .error e
          | .ok core =>
            match core.getKey "remaining" with
            | .error e => .error e
            | .ok remaining =>
              match core.getKey "reset" with
              | .error e => .error e
              | .ok rv =>
                match rv.asInt with
                | .error e => .error e
                | .ok reset =>
                  match core.getKey "limit" with
                  | .error e => .error e
                  | .ok lim => .ok (some ⟨remaining, formatHMS tz reset, lim⟩)
    else .ok none

/-- `check_rate_limit`: `except Exception: pass` then `return None` — every
failure of any kind yields `None`. -/
def check_rate_limit (tz : Int) (hr : HTTPResult) : Option RateLimitStatus :=
  match rateInner tz hr with
  | .ok v => v
  | .error _ => none

/-- Character-list comparison: does the second list start with the first? -/
def leadsWith : List Char → List Char → Bool
  | [], _ => true
  | _ :: _, [] => false
  | a :: as, b :: bs => a == b && leadsWith as bs

/-- Substring test on character lists (Python `needle in hay`). -/
def hasSub (needle : List Char) : List Char → Bool
  | [] => needle.isEmpty
  | c :: rest => leadsWith needle (c :: rest) || hasSub needle rest

/-- Substring test on strings. -/
def containsSub (needle hay : String) : Bool := hasSub needle.data hay.data

/-- `repo.replace(".git", "")`: removes every non-overlapping occurrence of
`.git`, scanning left to right — not only a trailing suffix. -/
def removeDotGit : List Char → List Char
  | '.' :: 'g' :: 'i' :: 't' :: rest => removeDotGit rest
  | c :: rest => c :: removeDotGit rest
  | [] => []

/-- One attempt of the regex `github\.com/([^/]+)/([^/]+)` anchored at the
current position: the literal host, a nonempty run of non-slash characters,
a slash, and a second nonempty run of non-slash characters. -/
def ghMatchAt (cs : List Char) : Option (String × String) :=
  if leadsWith "github.com/".data cs then
    let rest := cs.drop 11
    let owner := rest.takeWhile fun c => c ≠ '/'
    match rest.drop owner.length with
    | '/' :: rest2 =>
      let nm := rest2.takeWhile fun c => c ≠ '/'
      if owner.isEmpty || nm.isEmpty then none
      else some (String.mk owner, String.mk nm)
    | _ => none
  else none

/-- `re.search`: try every start position left to right, first match wins. -/
def searchGH : List Char → Option (String × String)
  | [] => none
  | c :: rest =>
    match ghMatchAt (c :: rest) with
    | some p => some p
    | none => searchGH rest

/-- `extract_repo_info(url)`: regex search, then `.git` removal on the
captured name; `(None, None)` when the pattern does not occur. -/
def extract_repo_info (url : String) : Option String × Option String :=
  match searchGH url.data with
  | some (owner, nm) => (some owner, some (String.mk (removeDotGit nm.data)))
  | none => (none, none)

/-- Well-formedness of one week record of the commit-activity payload: an
object carrying an in-range integer `week` timestamp, an integer `total`,
and a 7-element integer `days` list whose sum is `total`. -/
def daysInts : List JVal → Option (List Int)
  | [] => some []
  | .jint n :: rest => (daysInts rest).map fun l => n :: l
  | _ => none

/-- Decidable well-formedness check for a week record. -/
def wfWeek (v : JVal) : Bool :=
  match v.getKey "week" with
  | .ok (.jint w) =>
    match v.getKey "total" with
    | .ok (.jint t) =>
      match v.getKey "days" with
      | .ok (.jarr ds) =>
        match daysInts ds with
        | some l => decide (0 ≤ w) && decide (w < 2147483648) && l.length == 7 && t == l.sum
        | none => false
      | _ => false
    | _ => false
  | _ => false

/-- The `total` field of a well-formed week record (0 on any other value;
used only to state sums). -/
def weekTotal (w : JVal) : Int :=
  match w.getKey "total" with
  | .ok (.jint t) => t
  | _ => 0

/-- Sum of the weekly totals of a payload. -/
def weeksTotalSum (ws : List JVal) : Int := (ws.map weekTotal).sum

/-- Does an outcome consist of a raised `GitHubAPIError` whose message
contains a retry suggestion (the words "try again")? -/
def timeoutRetryApi {α : Type} : Outcome α → Bool
  | .raised (.api e) => containsSub "try again" e.message
  | _ => false

/-- Two-week commit-activity payload of the spec scenario, week 1. -/
def demoWeek1 : JVal := .jobj [("week", .jint 0), ("total", .jint 5),
  ("days", .jarr [.jint 1, .jint 0, .jint 0, .jint 0, .jint 0, .jint 0, .jint 4])]

/-- Two-week commit-activity payload of the spec scenario, week 2. -/
def demoWeek2 : JVal := .jobj [("week", .jint 604800), ("total", .jint 3),
  ("days", .jarr [.jint 0, .jint 1, .jint 1, .jint 0, .jint 0, .jint 1, .jint 0])]

/-- A well-formed `rate_limit` payload. -/
def demoRatePayload : JVal := .jobj [("resources", .jobj [("core", .jobj
  [("remaining", .jint 4999), ("reset", .jint 1700000000), ("limit", .jint 5000)])])]

/-- Repository-metadata payload with `description` explicitly `null` and
`language` absent. -/
def demoRepoPayload : List (String × JVal) :=
  [("name", .jstr "Hello-World"), ("description", .jnull),
   ("stargazers_count", .jint 80), ("forks_count", .jint 9), ("watchers_count", .jint 80),
   ("created_at", .jstr "2011-01-26T19:01:12Z"), ("updated_at", .jstr "2011-01-26T19:14:43Z")]

/-! ## Helper lemmas -/

/-- A list of length 7 is a literal 7-element list. -/
theorem list_length7 {α : Type} (l : List α) (h : l.length = 7) :
    ∃ a0 a1 a2 a3 a4 a5 a6, l = [a0, a1, a2, a3, a4, a5, a6] := by
  cases l with
  | nil => simp at h
  | cons a0 l =>
    cases l with
    | nil => simp at h
    | cons a1 l =>
      cases l with
      | nil => simp at h
      | cons a2 l =>
        cases l with
        | nil => simp at h
        | cons a3 l =>
          cases l with
          | nil => simp at h
          | cons a4 l =>
            cases l with
            | nil => simp at h
            | cons a5 l =>
              cases l with
              | nil => simp at h
              | cons a6 l =>
                cases l with
                | nil => exact ⟨a0, a1, a2, a3, a4, a5, a6, rfl⟩
                | cons a7 l => simp only [List.length_cons] at h; omega

/-- `daysInts` succeeds exactly on lists of integer literals. -/
theorem daysInts_spec (ds : List JVal) (l : List Int) (h : daysInts ds = some l) :
    ds = List.map JVal.jint l := by
  induction ds generalizing l with
  | nil =>
    simp only [daysInts, Option.some.injEq] at h
    subst h; rfl
  | cons d rest ih =>
    cases d with
    | jint n =>
      simp only [daysInts, Option.map_eq_some'] at h
      obtain ⟨l2, hl2, hcons⟩ := h
      subst hcons
      simp [ih l2 hl2]
    | jnull => simp [daysInts] at h
    | jstr s => simp [daysInts] at h
    | jarr a => simp [daysInts] at h
    | jobj a => simp [daysInts] at h

/-- Unfolding of a well-formed week record. -/
theorem wfWeek_spec (w : JVal) (h : wfWeek w = true) :
    ∃ (ts t : Int) (l : List Int), w.getKey "week" = .ok (.jint ts) ∧
      w.getKey "total" = .ok (.jint t) ∧
      w.getKey "days" = .ok (.jarr (List.map JVal.jint l)) ∧ l.length = 7 ∧ t = l.sum := by
  cases hw : w.getKey "week" with
  | error e => simp [wfWeek, hw] at h
  | ok wv =>
    cases wv with
    | jint nw =>
      cases ht : w.getKey "total" with
      | error e => simp [wfWeek, hw, ht] at h
      | ok tv =>
        cases tv with
        | jint nt =>
          cases hd : w.getKey "days" with
          | error e => simp [wfWeek, hw, ht, hd] at h
          | ok dv =>
            cases dv with
            | jarr ds =>
              cases hds : daysInts ds with
              | none => simp [wfWeek, hw, ht, hd, hds] at h
              | some l =>
                simp only [wfWeek, hw, ht, hd, hds, Bool.and_eq_true, decide_eq_true_eq,
                  beq_iff_eq] at h
                exact ⟨nw, nt, l, rfl, rfl, by rw [daysInts_spec ds l hds], h.1.2, h.2⟩
            | jnull => simp [wfWeek, hw, ht, hd] at h
            | jint n => simp [wfWeek, hw, ht, hd] at h
            | jstr s => simp [wfWeek, hw, ht, hd] at h
            | jobj a => simp [wfWeek, hw, ht, hd] at h
        | jnull => simp [wfWeek, hw, ht] at h
        | jstr s => simp [wfWeek, hw, ht] at h
        | jarr a => simp [wfWeek, hw, ht] at h
        | jobj a => simp [wfWeek, hw, ht] at h
    | jnull => simp [wfWeek, hw] at h
    | jstr s => simp [wfWeek, hw] at h
    | jarr a => simp [wfWeek, hw] at h
    | jobj a => simp [wfWeek, hw] at h

/-- One outer iteration of the day-of-week accumulation adds the week's
seven per-day counts slot by slot: the accumulator keeps length 7 and its
sum grows by the week's `days` sum. -/
theorem addWeekDays_spec (w : JVal) (l : List Int)
    (hds : w.getKey "days" = .ok (.jarr (List.map JVal.jint l))) (hlen : l.length = 7) :
    ∀ acc : List Int, acc.length = 7 →
      ∃ acc2, addWeekDays acc w = .ok acc2 ∧ acc2.length = 7 ∧ acc2.sum = acc.sum + l.sum := by
  obtain ⟨a0, a1, a2, a3, a4, a5, a6, rfl⟩ := list_length7 l hlen
  intro acc hacc
  obtain ⟨x0, x1, x2, x3, x4, x5, x6, rfl⟩ := list_length7 acc hacc
  refine ⟨[x0 + a0, x1 + a1, x2 + a2, x3 + a3, x4 + a4, x5 + a5, x6 + a6], ?_, by simp, ?_⟩
  · simp [addWeekDays, addDaysLoop, addDay, hds, JVal.index, JVal.asInt, List.set, List.getD]
  · simp only [List.sum_cons, List.sum_nil]
    ring

/-- The whole day-of-week accumulation over a list of well-formed weeks. -/
theorem dailyFold_spec (ws : List JVal) (hwf : ∀ w ∈ ws, wfWeek w = true) :
    ∀ acc : List Int, acc.length = 7 →
      ∃ d, dailyFold ws acc = .ok d ∧ d.length = 7 ∧ d.sum = acc.sum + weeksTotalSum ws := by
  induction ws with
  | nil =>
    intro acc hacc
    exact ⟨acc, rfl, hacc, by simp [weeksTotalSum]⟩
  | cons w rest ih =>
    intro acc hacc
    obtain ⟨ts, t, l, hwk, hto, hda, hlen, hsum⟩ := wfWeek_spec w (hwf w (by simp))
    obtain ⟨acc2, ha2, hl2, hs2⟩ := addWeekDays_spec w l hda hlen acc hacc
    obtain ⟨d, hd, hld, hsd⟩ := ih (fun x hx => hwf x (by simp [hx])) acc2 hl2
    refine ⟨d, ?_, hld, ?_⟩
    · simp [dailyFold, ha2, hd]
    · have hwt : weekTotal w = t := by simp [weekTotal, hto]
      rw [hsd, hs2]
      simp only [weeksTotalSum, List.map_cons, List.sum_cons, hwt, hsum]
      ring

/-- `sum(week['total'] for week in data)` over well-formed weeks. -/
theorem sumTotals_spec (ws : List JVal) (hwf : ∀ w ∈ ws, wfWeek w = true) :
    ∀ acc : Int, sumTotals ws acc = .ok (acc + weeksTotalSum ws) := by
  induction ws with
  | nil => intro acc; simp [sumTotals, weeksTotalSum]
  | cons w rest ih =>
    intro acc
    obtain ⟨ts, t, l, hwk, hto, hda, hlen, hsum⟩ := wfWeek_spec w (hwf w (by simp))
    have hwt : weekTotal w = t := by simp [weekTotal, hto]
    rw [sumTotals, hto]
    simp only [JVal.asInt, ih (fun x hx => hwf x (by simp [hx])), weeksTotalSum,
      List.map_cons, List.sum_cons, hwt]
    congr 1
    ring

/-- The week-date loop succeeds on well-formed weeks. -/
theorem weekDates_spec (tz : Int) (ws : List JVal) (hwf : ∀ w ∈ ws, wfWeek w = true) :
    ∃ l, weekDates tz ws = .ok l := by
  induction ws with
  | nil => exact ⟨[], rfl⟩
  | cons w rest ih =>
    obtain ⟨ts, t, l, hwk, hto, hda, hlen, hsum⟩ := wfWeek_spec w (hwf w (by simp))
    obtain ⟨dl, hdl⟩ := ih (fun x hx => hwf x (by simp [hx]))
    exact ⟨fromtimestampDate tz ts :: dl, by rw [weekDates, hwk]; simp [JVal.asInt, hdl]⟩

/-- `[week['total'] for week in data]` over well-formed weeks is the list of
weekly totals. -/
theorem weekCommits_spec (ws : List JVal) (hwf : ∀ w ∈ ws, wfWeek w = true) :
    weekCommits ws = .ok (ws.map weekTotal) := by
  induction ws with
  | nil => rfl
  | cons w rest ih =>
    obtain ⟨ts, t, l, hwk, hto, hda, hlen, hsum⟩ := wfWeek_spec w (hwf w (by simp))
    have hwt : weekTotal w = t := by simp [weekTotal, hto]
    rw [weekCommits, hto]
    simp [JVal.asInt, ih (fun x hx => hwf x (by simp [hx])), hwt]

/-! ## Claim theorems -/

/-- Claim C1: for every well-formed weekly-activity payload (each week
record carries an integer `week` timestamp, an integer `total`, and a
7-element integer `days` list summing to `total`) with a non-empty series,
the ready result of `fetch_commit_activity` satisfies
`totalCommits = sum of weekly commit counts = sum of the 7 dailyCommits
slots`, and the daily distribution has exactly 7 slots. -/
theorem fetch_commit_activity_ready_invariant (tz : Int) (hs : List (String × String))
    (txt : String) (ws : List JVal) (hne : ws ≠ []) (hwf : ∀ w ∈ ws, wfWeek w = true) :
    ∃ (weeks : List String) (commits daily : List Int),
      fetch_commit_activity tz (.response ⟨200, hs, some (.jarr ws), txt⟩) =
        .ok (some (.ready (weeksTotalSum ws) weeks commits daily)) ∧
      commits.sum = weeksTotalSum ws ∧ daily.sum = weeksTotalSum ws ∧ daily.length = 7 := by
  obtain ⟨dl, hdl⟩ := weekDates_spec tz ws hwf
  obtain ⟨d, hd, hld, hsd⟩ := dailyFold_spec ws hwf (List.replicate 7 0) (by simp)
  have hsum0 : sumTotals ws 0 = .ok (weeksTotalSum ws) := by
    simpa using sumTotals_spec ws hwf 0
  have hwc : weekCommits ws = .ok (ws.map weekTotal) := weekCommits_spec ws hwf
  have hfe : ws.isEmpty = false := by
    cases ws with
    | nil => exact absurd rfl hne
    | cons a l => rfl
  have hd2 : dailyFold ws [0, 0, 0, 0, 0, 0, 0] = .ok d := hd
  refine ⟨dl, ws.map weekTotal, d, ?_, rfl, by simpa using hsd, hld⟩
  simp [fetch_commit_activity, commitInner, JVal.isFalsy, JVal.asList, hfe, hsum0, hdl, hwc, hd2]

/-- Claim C1 witness: the concrete two-week scenario (week 1 `total=5`,
`days=[1,0,0,0,0,0,4]`; week 2 `total=3`, `days=[0,1,1,0,0,1,0]`) is
well-formed, satisfies the invariant, and evaluates to `totalCommits = 8`
with `dailyCommits = [1,1,1,0,0,1,4]`. -/
theorem fetch_commit_activity_ready_invariant_witness :
    (∃ (weeks : List String) (commits daily : List Int),
      fetch_commit_activity 0 (.response ⟨200, [], some (.jarr [demoWeek1, demoWeek2]), ""⟩) =
        .ok (some (.ready (weeksTotalSum [demoWeek1, demoWeek2]) weeks commits daily)) ∧
      commits.sum = weeksTotalSum [demoWeek1, demoWeek2] ∧
      daily.sum = weeksTotalSum [demoWeek1, demoWeek2] ∧ daily.length = 7) ∧
    weeksTotalSum [demoWeek1, demoWeek2] = 8 ∧
    fetch_commit_activity 0 (.response ⟨200, [], some (.jarr [demoWeek1, demoWeek2]), ""⟩) =
      .ok (some (.ready 8 ["1970-01-01", "1970-01-08"] [5, 3] [1, 1, 1, 0, 0, 1, 4])) :=
  ⟨fetch_commit_activity_ready_invariant 0 [] "" [demoWeek1, demoWeek2]
      (by simp) (by decide), rfl, rfl⟩

/-- Claim C3 (code bug): on the URL
`https://github.com/octocat/octocat.github.io` the extractor returns the
name `octocathub.io` — `repo.replace(".git", "")` removes the interior
`.git` occurrence as well, although the code's own comment and the spec call
for stripping only a trailing `.git` suffix (here the name should have been
returned unchanged). -/
theorem extract_repo_info_removes_inner_dotgit :
    extract_repo_info "https://github.com/octocat/octocat.github.io" =
      (some "octocat", some "octocathub.io") ∧
    extract_repo_info "https://github.com/user/repo.git" = (some "user", some "repo") ∧
    extract_repo_info "not a url" = (none, none) := ⟨rfl, rfl, rfl⟩

/-- Claim C4 (counterexample): on a transport timeout the language fetcher
re-raises the bare transport exception — not a `GitHubAPIError` — and the
commit-activity fetcher's timeout error carries no retry suggestion. -/
theorem timeout_language_not_api_error :
    fetch_language_stats 0 .timeout = .raised .timeoutExc ∧
    timeoutRetryApi (fetch_commit_activity 0 .timeout) = false := ⟨rfl, rfl⟩

/-- Claim C4 (amended): a transport timeout makes the repository-summary
fetcher raise a single `GitHubAPIError` whose message suggests retrying;
the language fetcher re-raises the transport timeout exception unwrapped;
the commit-activity fetcher raises a single `GitHubAPIError` whose message
has no retry suggestion.  No fetcher returns a partial value. -/
theorem timeout_outcomes_per_fetcher (tz : Int) :
    fetch_repo_data tz .timeout =
      .raised (.api (.mk "Request timed out. Please try again." none none)) ∧
    containsSub "try again" "Request timed out. Please try again." = true ∧
    fetch_language_stats tz .timeout = .raised .timeoutExc ∧
    fetch_commit_activity tz .timeout =
      .raised (.api (.mk "Request timed out while fetching commit activity." none none)) ∧
    containsSub "try again" "Request timed out while fetching commit activity." = false :=
  ⟨rfl, rfl, rfl, rfl, rfl⟩

/-- Claim C6: a 202 status from the commit-activity endpoint always yields
the computing state carrying its message, whatever the headers, body (even
an unparseable one) and text — no exception is raised. -/
theorem fetch_commit_activity_202_computing (tz : Int) (hs : List (String × String))
    (body : Option JVal) (txt : String) :
    fetch_commit_activity tz (.response ⟨202, hs, body, txt⟩) =
      .ok (some (.computing
        "GitHub is computing statistics. Please wait a moment and try again.")) := rfl

/-- Claim C8: a 200 response with an empty languages mapping yields the
explicit no-data signal (Python `None`), which is distinct from every
error outcome and from every mapping — in particular from the empty
mapping. -/
theorem fetch_language_stats_empty_nodata (tz : Int) (hs : List (String × String))
    (txt : String) :
    fetch_language_stats tz (.response ⟨200, hs, some (.jobj []), txt⟩) = .ok none ∧
    (∀ m : List (String × ℚ),
      (Outcome.ok none : Outcome (Option (List (String × ℚ)))) ≠ .ok (some m)) ∧
    (∀ e : PyExc,
      (Outcome.ok none : Outcome (Option (List (String × ℚ)))) ≠ .raised e) := by
  refine ⟨rfl, ?_, ?_⟩
  · intro m h
    injection h with h2
    exact Option.noConfusion h2
  · intro e h
    exact Outcome.noConfusion h

/-- `sum(languages.values())` on an integer byte-count mapping. -/
theorem sumValues_ints (counts : List (String × Int)) :
    ∀ acc : ℚ, sumValues (counts.map fun p => (p.1, JVal.jint p.2)) acc =
      .ok (acc + (((counts.map Prod.snd).sum : Int) : ℚ)) := by
  induction counts with
  | nil => intro acc; simp [sumValues]
  | cons p rest ih =>
    intro acc
    simp only [List.map_cons, sumValues, JVal.asNum, ih, List.sum_cons]
    congr 1
    push_cast
    ring

/-- The percentage comprehension on an integer byte-count mapping with a
nonzero total. -/
theorem pctList_ints (counts : List (String × Int)) (T : ℚ) (hT : T ≠ 0) :
    pctList (counts.map fun p => (p.1, JVal.jint p.2)) T =
      .ok (counts.map fun p => (p.1, ((p.2 : Int) : ℚ) / T * 100)) := by
  induction counts with
  | nil => rfl
  | cons p rest ih =>
    simp only [List.map_cons, pctList, JVal.asNum, if_neg hT, ih]

/-- Sum of the percentage values. -/
theorem pct_sum (counts : List (String × Int)) (T : ℚ) :
    ((counts.map fun p => ((p.2 : Int) : ℚ) / T * 100).sum) =
      (((counts.map Prod.snd).sum : Int) : ℚ) / T * 100 := by
  induction counts with
  | nil => simp
  | cons p rest ih =>
    simp only [List.map_cons, List.sum_cons, ih]
    push_cast
    ring

/-- Claim C2 (amended): for every non-empty byte-count mapping with a
positive total, the language fetcher returns a mapping with the same
language keys in order, where each percentage equals
`100 * bytes[lang] / total`, and the percentages sum to exactly 100. -/
theorem fetch_language_stats_percentages (tz : Int) (hs : List (String × String))
    (txt : String) (counts : List (String × Int)) (hne : counts ≠ [])
    (hpos : 0 < (counts.map Prod.snd).sum) :
    fetch_language_stats tz (.response ⟨200, hs,
        some (.jobj (counts.map fun p => (p.1, JVal.jint p.2))), txt⟩) =
      .ok (some (counts.map fun p =>
        (p.1, 100 * ((p.2 : Int) : ℚ) / (((counts.map Prod.snd).sum : Int) : ℚ)))) ∧
    ((counts.map fun p =>
        (p.1, 100 * ((p.2 : Int) : ℚ) / (((counts.map Prod.snd).sum : Int) : ℚ))).map
      Prod.snd).sum = 100 ∧
    ((counts.map fun p =>
        (p.1, 100 * ((p.2 : Int) : ℚ) / (((counts.map Prod.snd).sum : Int) : ℚ))).map
      Prod.fst) = counts.map Prod.fst := by
  have hT0 : (((counts.map Prod.snd).sum : Int) : ℚ) ≠ 0 :=
    ne_of_gt (by exact_mod_cast hpos)
  have hfe : (counts.map fun p => (p.1, JVal.jint p.2)).isEmpty = false := by
    cases counts with
    | nil => exact absurd rfl hne
    | cons p rest => rfl
  have hsv : sumValues (counts.map fun p => (p.1, JVal.jint p.2)) 0 =
      .ok (((counts.map Prod.snd).sum : Int) : ℚ) := by
    simpa using sumValues_ints counts 0
  have hpl := pctList_ints counts (((counts.map Prod.snd).sum : Int) : ℚ) hT0
  have hfun : (fun p : String × Int =>
        (p.1, ((p.2 : Int) : ℚ) / (((counts.map Prod.snd).sum : Int) : ℚ) * 100)) =
      (fun p : String × Int =>
        (p.1, 100 * ((p.2 : Int) : ℚ) / (((counts.map Prod.snd).sum : Int) : ℚ))) := by
    funext p
    exact congrArg (Prod.mk p.1) (by ring)
  refine ⟨?_, ?_, ?_⟩
  · simp only [fetch_language_stats, langInner, JVal.isFalsy, JVal.asObj, hfe,
      Bool.false_eq_true, if_false, hsv, hpl, hfun]
    simp
  · rw [List.map_map]
    have : (Prod.snd ∘ fun p : String × Int =>
        (p.1, 100 * ((p.2 : Int) : ℚ) / (((counts.map Prod.snd).sum : Int) : ℚ))) =
        (fun p : String × Int =>
          ((p.2 : Int) : ℚ) / (((counts.map Prod.snd).sum : Int) : ℚ) * 100) := by
      funext p
      simp [Function.comp]
      ring
    rw [this, pct_sum, div_mul_comm]
    exact div_mul_cancel₀ 100 hT0
  · rw [List.map_map]
    rfl

/-- Claim C2 (counterexample): the non-empty all-zero byte-count mapping
`{"Python": 0}` does not produce a percentage mapping — the division by the
zero total raises, and the fetcher wraps it into a `GitHubAPIError`. -/
theorem fetch_language_stats_zero_total_error :
    fetch_language_stats 0 (.response ⟨200, [], some (.jobj [("Python", .jint 0)]), ""⟩) =
      .raised (.api (.mk "Error fetching language statistics: division by zero" none none)) := by
  simp [fetch_language_stats, langInner, JVal.isFalsy, JVal.asObj, sumValues, JVal.asNum,
    pctList, PyExc.pyStr]

/-- Claim C2 witness: the concrete payload `{"Python": 300, "JavaScript":
100}` yields `{"Python": 75.0, "JavaScript": 25.0}`. -/
theorem fetch_language_stats_percentages_witness :
    fetch_language_stats 0 (.response ⟨200, [],
        some (.jobj [("Python", .jint 300), ("JavaScript", .jint 100)]), ""⟩) =
      .ok (some [("Python", (75 : ℚ)), ("JavaScript", (25 : ℚ))]) := by
  have h := (fetch_language_stats_percentages 0 [] ""
    [("Python", 300), ("JavaScript", 100)] (by decide) (by decide)).1
  exact h.trans (by norm_num)

/-- Claim C5 (counterexample): for a 403 response with
`X-RateLimit-Reset: 1700000000`, the raised error reports the reset time as
the converted local-time string `22:13:20`; the verbatim header value
`1700000000` appears nowhere in the error. -/
theorem handle_403_reset_time_converted :
    handle_github_error 0 ⟨403, [("X-RateLimit-Remaining", "42"),
        ("X-RateLimit-Reset", "1700000000")], none, ""⟩ =
      .api (.mk "Rate limit exceeded. Resets at 22:13:20. Remaining calls: 42"
        (some 403) (some "42")) ∧
    containsSub "1700000000"
      "Rate limit exceeded. Resets at 22:13:20. Remaining calls: 42" = false := ⟨rfl, rfl⟩

/-- Claim C5 (amended): a 403 response raises a rate-limited
`GitHubAPIError` (status 403) whose `remaining_calls` is the
`X-RateLimit-Remaining` header verbatim ("Unknown" when the header is
missing) and whose message reports the reset time converted from the
numeric `X-RateLimit-Reset` Unix timestamp to an `HH:MM:SS` local-time
string ("Unknown" when the header is missing). -/
theorem handle_403_rate_limited (tz : Int) (hs : List (String × String)) (body : Option JVal)
    (txt : String) :
    (∀ (rem s : String) (n : Int), lookupStr hs "X-RateLimit-Remaining" = some rem →
      lookupStr hs "X-RateLimit-Reset" = some s → s.isEmpty = false →
      parseIntString s = some n →
      handle_github_error tz ⟨403, hs, body, txt⟩ =
        .api (.mk ("Rate limit exceeded. Resets at " ++ formatHMS tz n ++
            ". Remaining calls: " ++ rem) (some 403) (some rem))) ∧
    (lookupStr hs "X-RateLimit-Remaining" = none →
      lookupStr hs "X-RateLimit-Reset" = none →
      handle_github_error tz ⟨403, hs, body, txt⟩ =
        .api (.mk "Rate limit exceeded. Resets at Unknown. Remaining calls: Unknown"
          (some 403) (some "Unknown"))) := by
  constructor
  · intro rem s n hrem hres hne hn
    simp [handle_github_error, hrem, hres, hne, hn]
  · intro hrem hres
    simp [handle_github_error, hrem, hres]

/-- Claim C5 witness: both header situations at concrete inputs — headers
present (`42` / Unix `1700000000`, formatted at offset 0 as `22:13:20`) and
headers absent (`Unknown` twice). -/
theorem handle_403_rate_limited_witness :
    handle_github_error 0 ⟨403, [("X-RateLimit-Remaining", "7"),
        ("X-RateLimit-Reset", "0")], none, ""⟩ =
      .api (.mk ("Rate limit exceeded. Resets at " ++ formatHMS 0 0 ++
        ". Remaining calls: " ++ "7") (some 403) (some "7")) ∧
    formatHMS 0 0 = "00:00:00" ∧
    handle_github_error 0 ⟨403, [], none, ""⟩ =
      .api (.mk "Rate limit exceeded. Resets at Unknown. Remaining calls: Unknown"
        (some 403) (some "Unknown")) :=
  ⟨(handle_403_rate_limited 0 [("X-RateLimit-Remaining", "7"), ("X-RateLimit-Reset", "0")]
      none "").1 "7" "0" 0 rfl rfl rfl rfl,
   rfl,
   (handle_403_rate_limited 0 [] none "").2 rfl rfl⟩

/-- Claim C7 (counterexample): a 404 on the commit-activity endpoint does
not surface the normalizer's not-found error: the fetcher's generic
`except Exception` clause wraps it into a fresh `GitHubAPIError` with a
different message and no status code. -/
theorem notfound_404_commit_wrapped :
    fetch_commit_activity 0 (.response ⟨404, [], none, ""⟩) =
      .raised (.api (.mk
        "Error fetching commit activity: Repository not found. Please check the URL."
        none none)) := rfl

/-- Claim C7 (amended): a 404 response yields the shared normalizer's
not-found `GitHubAPIError` (status 404, message "Repository not found.
Please check the URL.") unchanged from the repository-summary and
language-composition fetchers, while the commit-activity fetcher re-wraps
it into a generic error with a prefixed message and no status code. -/
theorem notfound_404_outcomes (tz : Int) (hs : List (String × String)) (body : Option JVal)
    (txt : String) (hres : lookupStr hs "X-RateLimit-Reset" = none) :
    fetch_repo_data tz (.response ⟨404, hs, body, txt⟩) =
      .raised (.api (.mk "Repository not found. Please check the URL." (some 404)
        (some ((lookupStr hs "X-RateLimit-Remaining").getD "Unknown")))) ∧
    fetch_language_stats tz (.response ⟨404, hs, body, txt⟩) =
      .raised (.api (.mk "Repository not found. Please check the URL." (some 404)
        (some ((lookupStr hs "X-RateLimit-Remaining").getD "Unknown")))) ∧
    fetch_commit_activity tz (.response ⟨404, hs, body, txt⟩) =
      .raised (.api (.mk
        "Error fetching commit activity: Repository not found. Please check the URL."
        none none)) := by
  have hh : handle_github_error tz ⟨404, hs, body, txt⟩ =
      .api (.mk "Repository not found. Please check the URL." (some 404)
        (some ((lookupStr hs "X-RateLimit-Remaining").getD "Unknown"))) := by
    simp [handle_github_error, hres]
  refine ⟨?_, ?_, ?_⟩
  · simp [fetch_repo_data, repoInner, hh]
  · simp [fetch_language_stats, langInner, hh]
  · simp [fetch_commit_activity, commitInner, hh, PyExc.pyStr, GitHubAPIErrorData.message]

/-- Claim C7 witness: the three outcomes at a concrete header-free 404
response. -/
theorem notfound_404_outcomes_witness :
    fetch_repo_data 0 (.response ⟨404, [], none, ""⟩) =
      .raised (.api (.mk "Repository not found. Please check the URL." (some 404)
        (some "Unknown"))) ∧
    fetch_language_stats 0 (.response ⟨404, [], none, ""⟩) =
      .raised (.api (.mk "Repository not found. Please check the URL." (some 404)
        (some "Unknown"))) ∧
    fetch_commit_activity 0 (.response ⟨404, [], none, ""⟩) =
      .raised (.api (.mk
        "Error fetching commit activity: Repository not found. Please check the URL."
        none none)) :=
  notfound_404_outcomes 0 [] none "" rfl

/-- Claim C9: the rate-limit check returns `none` on a transport failure,
on every non-200 status and on an unparseable body; and whenever it does
return a snapshot, the input was a 200 response whose payload extraction
succeeded.  It can raise nothing: its total result type is an `Option`. -/
theorem check_rate_limit_best_effort (tz : Int) :
    check_rate_limit tz .timeout = none ∧
    check_rate_limit tz .connectionError = none ∧
    (∀ r : Response, r.status ≠ 200 → check_rate_limit tz (.response r) = none) ∧
    (∀ r : Response, r.body = none → check_rate_limit tz (.response r) = none) ∧
    (∀ (hr : HTTPResult) (s : RateLimitStatus), check_rate_limit tz hr = some s →
      ∃ r : Response, hr = .response r ∧ r.status = 200 ∧
        rateInner tz hr = .ok (some s)) := by
  refine ⟨rfl, rfl, ?_, ?_, ?_⟩
  · intro r h
    simp [check_rate_limit, rateInner, h]
  · intro r hb
    by_cases hst : r.status = 200
    · simp [check_rate_limit, rateInner, hst, hb]
    · simp [check_rate_limit, rateInner, hst]
  · intro hr s h
    cases hr with
    | timeout => simp [check_rate_limit, rateInner] at h
    | connectionError => simp [check_rate_limit, rateInner] at h
    | response r =>
      by_cases hst : r.status = 200
      · refine ⟨r, rfl, hst, ?_⟩
        cases hri : rateInner tz (.response r) with
        | error e => rw [check_rate_limit, hri] at h; exact absurd h (by simp)
        | ok v =>
          rw [check_rate_limit, hri] at h
          simp only [] at h
          rw [h]
      · rw [check_rate_limit] at h
        rw [show rateInner tz (.response r) = .ok none by simp [rateInner, hst]] at h
        exact absurd h (by simp)

/-- Claim C9 witness: `none` at a concrete 404 response, and a snapshot at
a concrete well-formed 200 payload. -/
theorem check_rate_limit_best_effort_witness :
    check_rate_limit 0 (.response ⟨404, [], none, ""⟩) = none ∧
    (∃ r : Response, HTTPResult.response ⟨200, [], some demoRatePayload, ""⟩ = .response r ∧
      r.status = 200 ∧
      rateInner 0 (.response ⟨200, [], some demoRatePayload, ""⟩) =
        .ok (some ⟨.jint 4999, "22:13:20", .jint 5000⟩)) :=
  ⟨(check_rate_limit_best_effort 0).2.2.1 ⟨404, [], none, ""⟩ (by decide),
   (check_rate_limit_best_effort 0).2.2.2.2 (.response ⟨200, [], some demoRatePayload, ""⟩)
     ⟨.jint 4999, "22:13:20", .jint 5000⟩ rfl⟩

/-- Claim C10: when the metadata payload binds `description` or `language`
to an explicit `null`, the summary carries that `null` through unchanged;
the defaults "No description available" / "Not specified" appear exactly
when the corresponding key is absent from the payload. -/
theorem fetch_repo_data_null_passthrough (tz : Int) (hs : List (String × String))
    (txt : String) (fields : List (String × JVal)) (nv sv fv wv : JVal) (cs us cd ud : String)
    (hname : lookupStr fields "name" = some nv)
    (hstar : lookupStr fields "stargazers_count" = some sv)
    (hfork : lookupStr fields "forks_count" = some fv)
    (hwatch : lookupStr fields "watchers_count" = some wv)
    (hcre : lookupStr fields "created_at" = some (.jstr cs))
    (hupd : lookupStr fields "updated_at" = some (.jstr us))
    (hcd : format_dateStr cs = .ok cd)
    (hud : format_dateStr us = .ok ud) :
    fetch_repo_data tz (.response ⟨200, hs, some (.jobj fields), txt⟩) =
      .ok ⟨nv, (lookupStr fields "description").getD (.jstr "No description available"),
        sv, fv, wv, (lookupStr fields "language").getD (.jstr "Not specified"), cd, ud⟩ ∧
    (lookupStr fields "description" = some JVal.jnull →
      (lookupStr fields "description").getD (.jstr "No description available") = JVal.jnull) ∧
    (lookupStr fields "description" = none →
      (lookupStr fields "description").getD (.jstr "No description available") =
        .jstr "No description available") ∧
    (lookupStr fields "language" = some JVal.jnull →
      (lookupStr fields "language").getD (.jstr "Not specified") = JVal.jnull) ∧
    (lookupStr fields "language" = none →
      (lookupStr fields "language").getD (.jstr "Not specified") = .jstr "Not specified") := by
  refine ⟨?_, ?_, ?_, ?_, ?_⟩
  · simp [fetch_repo_data, repoInner, JVal.getKey, JVal.getDefault, format_date,
      hname, hstar, hfork, hwatch, hcre, hupd, hcd, hud]
  · intro h; rw [h]; rfl
  · intro h; rw [h]; rfl
  · intro h; rw [h]; rfl
  · intro h; rw [h]; rfl

/-- Claim C10 witness: a concrete payload with `description: null` and no
`language` key — the summary carries `null` through for the description and
substitutes "Not specified" for the absent language. -/
theorem fetch_repo_data_null_passthrough_witness :
    fetch_repo_data 0 (.response ⟨200, [], some (.jobj demoRepoPayload), ""⟩) =
      .ok ⟨.jstr "Hello-World", JVal.jnull, .jint 80, .jint 9, .jint 80,
        .jstr "Not specified", "2011-01-26", "2011-01-26"⟩ :=
  (fetch_repo_data_null_passthrough 0 [] "" demoRepoPayload (.jstr "Hello-World")
    (.jint 80) (.jint 9) (.jint 80) "2011-01-26T19:01:12Z" "2011-01-26T19:14:43Z"
    "2011-01-26" "2011-01-26" rfl rfl rfl rfl rfl rfl rfl rfl).1

/-- Claim C4 witness: the three timeout outcomes at offset 0. -/
theorem timeout_outcomes_per_fetcher_witness :
    fetch_repo_data 0 .timeout =
      .raised (.api (.mk "Request timed out. Please try again." none none)) ∧
    containsSub "try again" "Request timed out. Please try again." = true ∧
    fetch_language_stats 0 .timeout = .raised .timeoutExc ∧
    fetch_commit_activity 0 .timeout =
      .raised (.api (.mk "Request timed out while fetching commit activity." none none)) ∧
    containsSub "try again" "Request timed out while fetching commit activity." = false :=
  timeout_outcomes_per_fetcher 0

/-- Claim C6 witness: a concrete 202 response with an unparseable body. -/
theorem fetch_commit_activity_202_computing_witness :
    fetch_commit_activity 0 (.response ⟨202, [], none, ""⟩) =
      .ok (some (.computing
        "GitHub is computing statistics. Please wait a moment and try again.")) :=
  fetch_commit_activity_202_computing 0 [] none ""

/-- Claim C8 witness: the empty mapping at a concrete 200 response. -/
theorem fetch_language_stats_empty_nodata_witness :
    fetch_language_stats 0 (.response ⟨200, [], some (.jobj []), ""⟩) = .ok none ∧
    (∀ m : List (String × ℚ),
      (Outcome.ok none : Outcome (Option (List (String × ℚ)))) ≠ .ok (some m)) ∧
    (∀ e : PyExc,
      (Outcome.ok none : Outcome (Option (List (String × ℚ)))) ≠ .raised e) :=
  fetch_language_stats_empty_nodata 0 [] ""
